import Mathlib

/-!
Verification development for the OpenNotionAI tool layer and credential
connector.

The repository consists of twenty request adapters over the Notion REST API
(eighteen of them factories closing over a nullable bearer token, two taking
the token as a required schema argument) and one client-side credential
connector component backed by browser local storage.

The embedding below translates each adapter execute function into a pure
Lean function from (token, arguments, environment) to a result together
with the list of network requests it performed.  The network and the JSON
parser of the JavaScript runtime are passed in as an explicit environment,
so one invocation is a pure function of its inputs, exactly as the source
is after de-sugaring async and await.  Deeply nested request payloads
(rich text arrays, database filters, icons and covers) are carried as
already-validated JSON values: the adapter bodies treat them opaquely,
only inserting them conditionally into the request body.
-/

/-- A JSON value.  Numbers are modelled as integers: every numeric field in
the adapter schemas is declared as an integer, and no claim depends on
non-integral numbers.  Object fields are kept in insertion order, matching
JavaScript object semantics. -/
inductive Json where
  | null : Json
  | bool : Bool → Json
  | num : Int → Json
  | str : String → Json
  | arr : List Json → Json
  | obj : List (String × Json) → Json
deriving Repr

/-- Field lookup on a JSON object (first occurrence, as in JavaScript). -/
def jGet : Json → String → Option Json
  | Json.obj fields, k => fields.lookup k
  | _, _ => none

/-- True exactly on JSON objects. -/
def Json.isObj : Json → Bool
  | Json.obj _ => true
  | _ => false

/-- Coarse type check: string. -/
def isStr : Json → Bool
  | Json.str _ => true
  | _ => false

/-- Coarse type check: boolean. -/
def isBool : Json → Bool
  | Json.bool _ => true
  | _ => false

/-- Coarse type check: array. -/
def isArr : Json → Bool
  | Json.arr _ => true
  | _ => false

/-- Coarse type check: object. -/
def isObjCheck : Json → Bool
  | Json.obj _ => true
  | _ => false

/-- Coarse check for an integer number bounded above, as produced by the
zod chain of number, int and max bound used by the page-size fields. -/
def isIntAtMost (bound : Int) : Json → Bool
  | Json.num n => decide (n ≤ bound)
  | _ => false

/-- One top-level field of a zod object schema: its key, whether it is
required, and a check on the value when the key is present.  The embedded
checks cover the top-level shape of each declared schema (required versus
optional keys and the outer type of each value); nested constraints and
refinements are not modelled, so the embedded check accepts a superset of
what the source schema accepts. -/
structure FieldSpec where
  name : String
  required : Bool
  check : Json → Bool

/-- Whether one field specification is satisfied by an argument object. -/
def fieldOk (v : Json) (f : FieldSpec) : Bool :=
  match jGet v f.name with
  | some x => f.check x
  | none => !f.required

/-- Whether an argument value satisfies a top-level object schema: it must
be an object and every declared field must be satisfied.  Unknown keys are
ignored, matching the default zod object behaviour. -/
def schemaAccepts (spec : List FieldSpec) (v : Json) : Bool :=
  v.isObj && spec.all (fieldOk v)

/-- An HTTP request as assembled by an adapter: method, URL path (without
the query string), query parameters in append order, headers, and an
optional JSON body. -/
structure Request where
  method : String
  path : String
  query : List (String × String)
  headers : List (String × String)
  body : Option Json
deriving Repr

/-- The outcome the environment produces for one fetch call: either a
response with a status code and a decoded JSON body, or a thrown
exception carrying a message (covering network failures and any other
exception raised inside the try block). -/
inductive FetchOutcome where
  | success : Nat → Json → FetchOutcome
  | netThrow : String → FetchOutcome
deriving Repr

/-- The result an adapter returns to the agent runtime: the raw decoded
response body on success, or an error object with an optional details
field. -/
inductive ToolResult where
  | ok : Json → ToolResult
  | errorOnly : String → ToolResult
  | errorDetails : String → Json → ToolResult
deriving Repr

/-- The ambient JavaScript runtime facilities an adapter uses: the fetch
function and the built-in JSON parser (used by create-a-database on its
propertiesJson string argument). -/
structure NetEnv where
  net : Request → FetchOutcome
  parseJson : String → Except String Json

/-- Whether a status code counts as ok for a fetch response, that is,
whether it lies in the inclusive range 200 to 299. -/
def statusOk (status : Nat) : Bool :=
  decide (200 ≤ status) && decide (status ≤ 299)

/-- The Notion API version header value fixed in every adapter file. -/
def NOTION_API_VERSION : String := "2022-06-28"

/-- The base URL fixed in every adapter file. -/
def NOTION_API_BASE_URL : String := "https://api.notion.com/v1"

/-- The missing-credential error message, identical across all eighteen
credential-bound adapters. -/
def missingTokenError : String :=
  "Notion API integration token is not configured. Please configure it in the Notion Connector settings."

/-- The three headers every adapter attaches, in source order. -/
def notionHeaders (token : String) : List (String × String) :=
  [("Authorization", "Bearer " ++ token),
   ("Notion-Version", NOTION_API_VERSION),
   ("Content-Type", "application/json")]

/-- The part of a non-success error message before the status code: some
adapters tag the message with their operation name in parentheses, the
others use the untagged form. -/
def apiFailStem (tag : Option String) : String :=
  match tag with
  | some g => "Notion API request (" ++ g ++ ") failed with status "
  | none => "Notion API request failed with status "

/-- The catch-branch error message of an adapter, parameterized by the
operation name it mentions. -/
def failExecMsg (opName : String) : String :=
  "Failed to execute Notion " ++ opName ++ " due to a network or unexpected error."

/-- The null-or-empty token guard shared by the eighteen credential-bound
adapters: the JavaScript test bangs the token, so null, undefined and the
empty string all short-circuit to the missing-credential error without
touching the continuation. -/
def runGuarded (notionToken : Option String) (k : String → ToolResult × List Request) :
    ToolResult × List Request :=
  match notionToken with
  | none => (ToolResult.errorOnly missingTokenError, [])
  | some t => if t = "" then (ToolResult.errorOnly missingTokenError, []) else k t

/-- The single fetch round trip with the uniform response handling every
adapter performs inside its try block: on a non-ok status the decoded
error body is returned as details next to a message embedding the status
code; on a thrown exception the catch branch returns the generic message
with the exception text as details; on an ok status the decoded body is
returned as-is.  The second component records the one request issued. -/
def roundTrip (net : Request → FetchOutcome) (req : Request)
    (statusMsg : Nat → String) (catchMsg : String) : ToolResult × List Request :=
  match net req with
  | FetchOutcome.success status body =>
      if statusOk status then (ToolResult.ok body, [req])
      else (ToolResult.errorDetails (statusMsg status) body, [req])
  | FetchOutcome.netThrow m => (ToolResult.errorDetails catchMsg (Json.str m), [req])

/-- The shape shared by the adapters without an extra early-return branch:
guard the token, build the one request, perform the round trip. -/
def simpleExec (mkReq : String → Request) (statusMsg : Nat → String) (catchMsg : String)
    (token : Option String) (env : NetEnv) : ToolResult × List Request :=
  runGuarded token fun t => roundTrip env.net (mkReq t) statusMsg catchMsg

/-- The eighteen credential-bound adapters, one constructor per factory
function in the source. -/
inductive AdapterId where
  | retrieveABlock
  | getUsers
  | updateABlock
  | deleteABlock
  | createAComment
  | postDatabaseQuery
  | getUser
  | getSelf
  | retrieveADatabase
  | createADatabase
  | patchPage
  | getBlockChildren
  | retrieveAComment
  | patchBlockChildren
  | retrieveAPage
  | postPage
  | updateADatabase
  | retrieveAPageProperty
deriving Repr

/-- The whole tool layer: the credential-bound adapters plus the two tools
that take the token as a required schema argument instead (the search tool
and the argument-token variant of get-user). -/
inductive ToolId where
  | credBound : AdapterId → ToolId
  | postSearch
  | getUserTokenArg
deriving Repr

/-- The operation-name tag embedded in the non-success status message of
each tool, when the source message carries one. -/
def statusTagOf : ToolId → Option String
  | ToolId.credBound AdapterId.retrieveABlock => some "retrieve-a-block"
  | ToolId.credBound AdapterId.getUsers => some "get-users"
  | ToolId.credBound AdapterId.updateABlock => some "update-a-block"
  | ToolId.credBound AdapterId.deleteABlock => some "delete-a-block"
  | ToolId.credBound AdapterId.createAComment => none
  | ToolId.credBound AdapterId.postDatabaseQuery => some "post-database-query"
  | ToolId.credBound AdapterId.getUser => none
  | ToolId.credBound AdapterId.getSelf => none
  | ToolId.credBound AdapterId.retrieveADatabase => none
  | ToolId.credBound AdapterId.createADatabase => none
  | ToolId.credBound AdapterId.patchPage => some "patch-page"
  | ToolId.credBound AdapterId.getBlockChildren => some "get-block-children"
  | ToolId.credBound AdapterId.retrieveAComment => none
  | ToolId.credBound AdapterId.patchBlockChildren => some "patch-block-children"
  | ToolId.credBound AdapterId.retrieveAPage => some "retrieve-a-page"
  | ToolId.credBound AdapterId.postPage => none
  | ToolId.credBound AdapterId.updateADatabase => none
  | ToolId.credBound AdapterId.retrieveAPageProperty => none
  | ToolId.postSearch => none
  | ToolId.getUserTokenArg => none

/-- The operation name each tool mentions in its catch-branch message. -/
def opNameOf : ToolId → String
  | ToolId.credBound AdapterId.retrieveABlock => "retrieve-a-block"
  | ToolId.credBound AdapterId.getUsers => "get-users"
  | ToolId.credBound AdapterId.updateABlock => "update-a-block"
  | ToolId.credBound AdapterId.deleteABlock => "delete-a-block"
  | ToolId.credBound AdapterId.createAComment => "create comment"
  | ToolId.credBound AdapterId.postDatabaseQuery => "post-database-query"
  | ToolId.credBound AdapterId.getUser => "get user"
  | ToolId.credBound AdapterId.getSelf => "get-self"
  | ToolId.credBound AdapterId.retrieveADatabase => "retrieve database"
  | ToolId.credBound AdapterId.createADatabase => "create a database"
  | ToolId.credBound AdapterId.patchPage => "patch-page"
  | ToolId.credBound AdapterId.getBlockChildren => "get-block-children"
  | ToolId.credBound AdapterId.retrieveAComment => "retrieve comment"
  | ToolId.credBound AdapterId.patchBlockChildren => "patch-block-children"
  | ToolId.credBound AdapterId.retrieveAPage => "retrieve-a-page"
  | ToolId.credBound AdapterId.postPage => "create page"
  | ToolId.credBound AdapterId.updateADatabase => "update database"
  | ToolId.credBound AdapterId.retrieveAPageProperty => "retrieve page property"
  | ToolId.postSearch => "search"
  | ToolId.getUserTokenArg => "get user"

/-- The full non-success status message of a tool for a given status. -/
def statusMsgOf (t : ToolId) (status : Nat) : String :=
  apiFailStem (statusTagOf t) ++ toString status

/-- The full catch-branch message of a tool. -/
def catchMsgOf (t : ToolId) : String :=
  failExecMsg (opNameOf t)

/-- Whitespace as trimmed by the JavaScript trim call (the ASCII fragment;
the additional Unicode space code points JavaScript also trims do not
matter for any claim, which only distinguishes whitespace from
non-whitespace ends). -/
def isJsWS (c : Char) : Bool := c.isWhitespace

/-- The JavaScript trim on a character list: drop whitespace from the
right end, then from the left end. -/
def jsTrimList (l : List Char) : List Char :=
  ((l.reverse.dropWhile isJsWS).reverse).dropWhile isJsWS

/-- The JavaScript String.prototype.trim call used by the page-retrieval
adapter and the connector save handler. -/
def jsTrim (s : String) : String :=
  String.mk (jsTrimList s.data)

/-- The JavaScript split on a single-character separator, on character
lists: splitting the empty string yields one empty piece, and every
separator occurrence starts a new piece, so adjacent separators yield
empty pieces, exactly as in JavaScript. -/
def jsSplitList (sep : Char) : List Char → List (List Char)
  | [] => [[]]
  | c :: rest =>
      if c = sep then [] :: jsSplitList sep rest
      else
        match jsSplitList sep rest with
        | h :: t2 => (c :: h) :: t2
        | [] => [[c]]

/-- The JavaScript String.prototype.split call with a one-character
separator, as used by the page-retrieval adapter on its comma-separated
filter-properties argument. -/
def jsSplit (sep : Char) (s : String) : List String :=
  (jsSplitList sep s.data).map String.mk

/-- Query parameter appended only when an optional string argument is
truthy, that is, present and non-empty. -/
def optStrParam (key : String) (o : Option String) : List (String × String) :=
  match o with
  | some s => if s = "" then [] else [(key, s)]
  | none => []

/-- Query parameter appended when an optional integer argument is defined
(the source compares against undefined, so zero is kept). -/
def definedIntParam (key : String) (o : Option Int) : List (String × String) :=
  match o with
  | some n => [(key, toString n)]
  | none => []

/-- Query parameter appended only when an optional integer argument is
truthy (the source uses a bare if, so zero is dropped). -/
def truthyIntParam (key : String) (o : Option Int) : List (String × String) :=
  match o with
  | some n => if n = 0 then [] else [(key, toString n)]
  | none => []

/-- Body field inserted when an optional object or array argument is
present (objects and arrays are always truthy in JavaScript, so the bare
if and the undefined comparison coincide here). -/
def optField (key : String) (o : Option Json) : List (String × Json) :=
  match o with
  | some j => [(key, j)]
  | none => []

/-- Body field inserted only when an optional string argument is truthy. -/
def optStrField (key : String) (o : Option String) : List (String × Json) :=
  match o with
  | some s => if s = "" then [] else [(key, Json.str s)]
  | none => []

/-- Body field inserted when an optional integer argument is defined. -/
def definedIntField (key : String) (o : Option Int) : List (String × Json) :=
  match o with
  | some n => [(key, Json.num n)]
  | none => []

/-- Body field inserted only when an optional integer argument is truthy. -/
def truthyIntField (key : String) (o : Option Int) : List (String × Json) :=
  match o with
  | some n => if n = 0 then [] else [(key, Json.num n)]
  | none => []

/-- Body field inserted when an optional boolean argument is defined. -/
def definedBoolField (key : String) (o : Option Bool) : List (String × Json) :=
  match o with
  | some b => [(key, Json.bool b)]
  | none => []

/-- Arguments of retrieve-a-block. -/
structure RetrieveABlockArgs where
  block_id : String

/-- Arguments of get-users. -/
structure GetUsersArgs where
  start_cursor : Option String
  page_size : Option Int

/-- Arguments of update-a-block: the block id, the optional archived flag,
and at most one block-specific update payload (the top-level refinement of
the source schema demands the archived flag or exactly one payload).  The
payloads are carried as validated JSON subtrees. -/
structure UpdateABlockArgs where
  block_id : String
  archived : Option Bool
  paragraph : Option Json
  heading_1 : Option Json
  heading_2 : Option Json
  heading_3 : Option Json
  bulleted_list_item : Option Json
  numbered_list_item : Option Json
  to_do : Option Json
  toggle : Option Json
  quote : Option Json
  callout : Option Json

/-- Arguments of delete-a-block. -/
structure DeleteABlockArgs where
  block_id : String

/-- Arguments of create-a-comment; parent and rich text are validated JSON
subtrees passed through into the request body. -/
structure CreateACommentArgs where
  parent : Json
  rich_text : Json

/-- Arguments of post-database-query.  The filter-properties list is
accepted by the schema but deliberately ignored by the adapter (it only
logs a warning). -/
structure PostDatabaseQueryArgs where
  database_id : String
  filter_properties : Option (List String)
  filter : Option Json
  sorts : Option Json
  start_cursor : Option String
  page_size : Option Int
  archived : Option Bool
  in_trash : Option Bool

/-- Arguments of the credential-bound get-user. -/
structure GetUserArgs where
  user_id : String

/-- Arguments of get-self (the schema is the empty object). -/
structure GetSelfArgs where

/-- Arguments of retrieve-a-database. -/
structure RetrieveADatabaseArgs where
  database_id : String

/-- Arguments of create-a-database: the parent subtree, the JSON-encoded
property schema string, and the optional title subtree. -/
structure CreateADatabaseArgs where
  parent : Json
  propertiesJson : String
  title : Option Json

/-- Arguments of patch-page. -/
structure PatchPageArgs where
  page_id : String
  properties : Option Json
  archived : Option Bool
  icon : Option Json
  cover : Option Json

/-- Arguments of get-block-children. -/
structure GetBlockChildrenArgs where
  block_id : String
  start_cursor : Option String
  page_size : Option Int

/-- Arguments of retrieve-a-comment. -/
structure RetrieveACommentArgs where
  block_id : String
  page_size : Option Int
  start_cursor : Option String

/-- Arguments of patch-block-children. -/
structure PatchBlockChildrenArgs where
  block_id : String
  children : Json
  after : Option String

/-- Arguments of retrieve-a-page. -/
structure RetrieveAPageArgs where
  page_id : String
  filter_properties : Option String

/-- Arguments of post-page. -/
structure PostPageArgs where
  parent : Json
  properties : Json
  children : Option Json
  icon : Option Json
  cover : Option Json

/-- Arguments of update-a-database. -/
structure UpdateADatabaseArgs where
  database_id : String
  title : Option Json
  description : Option Json
  properties : Option Json

/-- Arguments of retrieve-a-page-property. -/
structure RetrieveAPagePropertyArgs where
  page_id : String
  property_id : String
  page_size : Option Int
  start_cursor : Option String

/-- Arguments of the search tool, which takes the token as a required
schema argument instead of closing over a configured credential. -/
structure PostSearchArgs where
  notionToken : String
  query : String
  sort : Option Json
  filter : Option Json
  start_cursor : Option String
  page_size : Option Int

/-- Arguments of the argument-token variant of get-user. -/
structure GetUserTokenArgArgs where
  notionToken : String
  user_id : String

/-- The execute function of the retrieve-a-block tool. -/
def notionRetrieveABlock (token : Option String) (args : RetrieveABlockArgs)
    (env : NetEnv) : ToolResult × List Request :=
  simpleExec
    (fun t => { method := "GET", path := NOTION_API_BASE_URL ++ "/blocks/" ++ args.block_id,
                query := [], headers := notionHeaders t, body := none })
    (statusMsgOf (ToolId.credBound AdapterId.retrieveABlock))
    (catchMsgOf (ToolId.credBound AdapterId.retrieveABlock)) token env

/-- The execute function of the get-users tool. -/
def notionGetUsers (token : Option String) (args : GetUsersArgs)
    (env : NetEnv) : ToolResult × List Request :=
  simpleExec
    (fun t => { method := "GET", path := NOTION_API_BASE_URL ++ "/users",
                query := optStrParam "start_cursor" args.start_cursor
                         ++ definedIntParam "page_size" args.page_size,
                headers := notionHeaders t, body := none })
    (statusMsgOf (ToolId.credBound AdapterId.getUsers))
    (catchMsgOf (ToolId.credBound AdapterId.getUsers)) token env

/-- The single block-specific update the source for-in loop copies into
the request body: the first defined payload, in the key order of the
declared schema (the loop breaks after one, and the schema refinement
allows at most one). -/
def updateABlockPickUpdate (args : UpdateABlockArgs) : Option (String × Json) :=
  (args.paragraph.map (fun j => ("paragraph", j)))
  <|> (args.heading_1.map (fun j => ("heading_1", j)))
  <|> (args.heading_2.map (fun j => ("heading_2", j)))
  <|> (args.heading_3.map (fun j => ("heading_3", j)))
  <|> (args.bulleted_list_item.map (fun j => ("bulleted_list_item", j)))
  <|> (args.numbered_list_item.map (fun j => ("numbered_list_item", j)))
  <|> (args.to_do.map (fun j => ("to_do", j)))
  <|> (args.toggle.map (fun j => ("toggle", j)))
  <|> (args.quote.map (fun j => ("quote", j)))
  <|> (args.callout.map (fun j => ("callout", j)))

/-- The request body of update-a-block: the archived flag when defined,
then the single block-specific update when present. -/
def updateABlockBody (args : UpdateABlockArgs) : List (String × Json) :=
  definedBoolField "archived" args.archived
  ++ (match updateABlockPickUpdate args with
      | some kv => [kv]
      | none => [])

/-- The one request update-a-block builds. -/
def updateABlockRequest (t : String) (args : UpdateABlockArgs) : Request :=
  { method := "PATCH", path := NOTION_API_BASE_URL ++ "/blocks/" ++ args.block_id,
    query := [], headers := notionHeaders t,
    body := some (Json.obj (updateABlockBody args)) }

/-- The execute function of the update-a-block tool, with its early error
when neither the archived flag nor a block-specific update was given
(unreachable for schema-valid arguments because of the refinement, but
present in the code). -/
def notionUpdateABlock (token : Option String) (args : UpdateABlockArgs)
    (env : NetEnv) : ToolResult × List Request :=
  runGuarded token fun t =>
    if (updateABlockBody args).isEmpty then
      (ToolResult.errorOnly "No update operation specified (archived or block content).", [])
    else
      roundTrip env.net (updateABlockRequest t args)
        (statusMsgOf (ToolId.credBound AdapterId.updateABlock))
        (catchMsgOf (ToolId.credBound AdapterId.updateABlock))

/-- The execute function of the delete-a-block tool. -/
def notionDeleteABlock (token : Option String) (args : DeleteABlockArgs)
    (env : NetEnv) : ToolResult × List Request :=
  simpleExec
    (fun t => { method := "DELETE", path := NOTION_API_BASE_URL ++ "/blocks/" ++ args.block_id,
                query := [], headers := notionHeaders t, body := none })
    (statusMsgOf (ToolId.credBound AdapterId.deleteABlock))
    (catchMsgOf (ToolId.credBound AdapterId.deleteABlock)) token env

/-- The execute function of the create-a-comment tool. -/
def notionCreateAComment (token : Option String) (args : CreateACommentArgs)
    (env : NetEnv) : ToolResult × List Request :=
  simpleExec
    (fun t => { method := "POST", path := NOTION_API_BASE_URL ++ "/comments",
                query := [], headers := notionHeaders t,
                body := some (Json.obj [("parent", args.parent), ("rich_text", args.rich_text)]) })
    (statusMsgOf (ToolId.credBound AdapterId.createAComment))
    (catchMsgOf (ToolId.credBound AdapterId.createAComment)) token env

/-- The request body of post-database-query, assembled field by field in
source order; the filter-properties argument is not used. -/
def postDatabaseQueryBody (args : PostDatabaseQueryArgs) : List (String × Json) :=
  optField "filter" args.filter
  ++ optField "sorts" args.sorts
  ++ optStrField "start_cursor" args.start_cursor
  ++ definedIntField "page_size" args.page_size
  ++ definedBoolField "archived" args.archived
  ++ definedBoolField "in_trash" args.in_trash

/-- The execute function of the post-database-query tool. -/
def notionPostDatabaseQuery (token : Option String) (args : PostDatabaseQueryArgs)
    (env : NetEnv) : ToolResult × List Request :=
  simpleExec
    (fun t => { method := "POST",
                path := NOTION_API_BASE_URL ++ "/databases/" ++ args.database_id ++ "/query",
                query := [], headers := notionHeaders t,
                body := some (Json.obj (postDatabaseQueryBody args)) })
    (statusMsgOf (ToolId.credBound AdapterId.postDatabaseQuery))
    (catchMsgOf (ToolId.credBound AdapterId.postDatabaseQuery)) token env

/-- The execute function of the credential-bound get-user tool. -/
def notionGetUser (token : Option String) (args : GetUserArgs)
    (env : NetEnv) : ToolResult × List Request :=
  simpleExec
    (fun t => { method := "GET", path := NOTION_API_BASE_URL ++ "/users/" ++ args.user_id,
                query := [], headers := notionHeaders t, body := none })
    (statusMsgOf (ToolId.credBound AdapterId.getUser))
    (catchMsgOf (ToolId.credBound AdapterId.getUser)) token env

/-- The execute function of the get-self tool. -/
def notionGetSelf (token : Option String) (_args : GetSelfArgs)
    (env : NetEnv) : ToolResult × List Request :=
  simpleExec
    (fun t => { method := "GET", path := NOTION_API_BASE_URL ++ "/users/me",
                query := [], headers := notionHeaders t, body := none })
    (statusMsgOf (ToolId.credBound AdapterId.getSelf))
    (catchMsgOf (ToolId.credBound AdapterId.getSelf)) token env

/-- The execute function of the retrieve-a-database tool. -/
def notionRetrieveADatabase (token : Option String) (args : RetrieveADatabaseArgs)
    (env : NetEnv) : ToolResult × List Request :=
  simpleExec
    (fun t => { method := "GET", path := NOTION_API_BASE_URL ++ "/databases/" ++ args.database_id,
                query := [], headers := notionHeaders t, body := none })
    (statusMsgOf (ToolId.credBound AdapterId.retrieveADatabase))
    (catchMsgOf (ToolId.credBound AdapterId.retrieveADatabase)) token env

/-- The one request create-a-database builds, given the parsed property
schema. -/
def createADatabaseRequest (t : String) (args : CreateADatabaseArgs) (props : Json) : Request :=
  { method := "POST", path := NOTION_API_BASE_URL ++ "/databases",
    query := [], headers := notionHeaders t,
    body := some (Json.obj ([("parent", args.parent), ("properties", props)]
                            ++ optField "title" args.title)) }

/-- The execute function of the create-a-database tool: after the guard it
parses the propertiesJson string with the runtime JSON parser and returns
an error without a network call when parsing throws. -/
def notionCreateADatabase (token : Option String) (args : CreateADatabaseArgs)
    (env : NetEnv) : ToolResult × List Request :=
  runGuarded token fun t =>
    match env.parseJson args.propertiesJson with
    | Except.error m =>
        (ToolResult.errorDetails "Invalid JSON string provided for \"propertiesJson\"." (Json.str m), [])
    | Except.ok props =>
        roundTrip env.net (createADatabaseRequest t args props)
          (statusMsgOf (ToolId.credBound AdapterId.createADatabase))
          (catchMsgOf (ToolId.credBound AdapterId.createADatabase))

/-- The request body of patch-page, each field inserted when defined. -/
def patchPageBody (args : PatchPageArgs) : List (String × Json) :=
  optField "properties" args.properties
  ++ definedBoolField "archived" args.archived
  ++ optField "icon" args.icon
  ++ optField "cover" args.cover

/-- The execute function of the patch-page tool. -/
def notionPatchPage (token : Option String) (args : PatchPageArgs)
    (env : NetEnv) : ToolResult × List Request :=
  simpleExec
    (fun t => { method := "PATCH", path := NOTION_API_BASE_URL ++ "/pages/" ++ args.page_id,
                query := [], headers := notionHeaders t,
                body := some (Json.obj (patchPageBody args)) })
    (statusMsgOf (ToolId.credBound AdapterId.patchPage))
    (catchMsgOf (ToolId.credBound AdapterId.patchPage)) token env

/-- The execute function of the get-block-children tool. -/
def notionGetBlockChildren (token : Option String) (args : GetBlockChildrenArgs)
    (env : NetEnv) : ToolResult × List Request :=
  simpleExec
    (fun t => { method := "GET",
                path := NOTION_API_BASE_URL ++ "/blocks/" ++ args.block_id ++ "/children",
                query := optStrParam "start_cursor" args.start_cursor
                         ++ definedIntParam "page_size" args.page_size,
                headers := notionHeaders t, body := none })
    (statusMsgOf (ToolId.credBound AdapterId.getBlockChildren))
    (catchMsgOf (ToolId.credBound AdapterId.getBlockChildren)) token env

/-- The execute function of the retrieve-a-comment tool; the block id is
always appended as a query parameter, the optional page size only when
truthy (so zero is dropped), the optional cursor only when non-empty. -/
def notionRetrieveAComment (token : Option String) (args : RetrieveACommentArgs)
    (env : NetEnv) : ToolResult × List Request :=
  simpleExec
    (fun t => { method := "GET", path := NOTION_API_BASE_URL ++ "/comments",
                query := [("block_id", args.block_id)]
                         ++ truthyIntParam "page_size" args.page_size
                         ++ optStrParam "start_cursor" args.start_cursor,
                headers := notionHeaders t, body := none })
    (statusMsgOf (ToolId.credBound AdapterId.retrieveAComment))
    (catchMsgOf (ToolId.credBound AdapterId.retrieveAComment)) token env

/-- The execute function of the patch-block-children tool. -/
def notionPatchBlockChildren (token : Option String) (args : PatchBlockChildrenArgs)
    (env : NetEnv) : ToolResult × List Request :=
  simpleExec
    (fun t => { method := "PATCH",
                path := NOTION_API_BASE_URL ++ "/blocks/" ++ args.block_id ++ "/children",
                query := [], headers := notionHeaders t,
                body := some (Json.obj ([("children", args.children)]
                                        ++ optStrField "after" args.after)) })
    (statusMsgOf (ToolId.credBound AdapterId.patchBlockChildren))
    (catchMsgOf (ToolId.credBound AdapterId.patchBlockChildren)) token env

/-- The filter-properties query parameters of retrieve-a-page: when the
optional argument is truthy the adapter splits it on commas and appends
one trimmed parameter per piece, in order; otherwise it appends none. -/
def filterPropsParams (fp : Option String) : List (String × String) :=
  match fp with
  | some s =>
      if s = "" then []
      else (jsSplit (Char.ofNat 44) s).map (fun p => ("filter_properties", jsTrim p))
  | none => []

/-- The one request retrieve-a-page builds. -/
def retrieveAPageRequest (t : String) (args : RetrieveAPageArgs) : Request :=
  { method := "GET", path := NOTION_API_BASE_URL ++ "/pages/" ++ args.page_id,
    query := filterPropsParams args.filter_properties,
    headers := notionHeaders t, body := none }

/-- The execute function of the retrieve-a-page tool. -/
def notionRetrieveAPage (token : Option String) (args : RetrieveAPageArgs)
    (env : NetEnv) : ToolResult × List Request :=
  simpleExec
    (fun t => retrieveAPageRequest t args)
    (statusMsgOf (ToolId.credBound AdapterId.retrieveAPage))
    (catchMsgOf (ToolId.credBound AdapterId.retrieveAPage)) token env

/-- The request body of post-page: parent and properties always, the
optional subtrees when present. -/
def postPageBody (args : PostPageArgs) : List (String × Json) :=
  [("parent", args.parent), ("properties", args.properties)]
  ++ optField "children" args.children
  ++ optField "icon" args.icon
  ++ optField "cover" args.cover

/-- The execute function of the post-page tool. -/
def notionPostPage (token : Option String) (args : PostPageArgs)
    (env : NetEnv) : ToolResult × List Request :=
  simpleExec
    (fun t => { method := "POST", path := NOTION_API_BASE_URL ++ "/pages",
                query := [], headers := notionHeaders t,
                body := some (Json.obj (postPageBody args)) })
    (statusMsgOf (ToolId.credBound AdapterId.postPage))
    (catchMsgOf (ToolId.credBound AdapterId.postPage)) token env

/-- The request body of update-a-database. -/
def updateADatabaseBody (args : UpdateADatabaseArgs) : List (String × Json) :=
  optField "title" args.title
  ++ optField "description" args.description
  ++ optField "properties" args.properties

/-- The one request update-a-database builds. -/
def updateADatabaseRequest (t : String) (args : UpdateADatabaseArgs) : Request :=
  { method := "PATCH", path := NOTION_API_BASE_URL ++ "/databases/" ++ args.database_id,
    query := [], headers := notionHeaders t,
    body := some (Json.obj (updateADatabaseBody args)) }

/-- The execute function of the update-a-database tool, with its early
error when no updatable field was supplied (reachable even for
schema-valid arguments, since all three fields are optional and the
schema has no refinement). -/
def notionUpdateADatabase (token : Option String) (args : UpdateADatabaseArgs)
    (env : NetEnv) : ToolResult × List Request :=
  runGuarded token fun t =>
    if (updateADatabaseBody args).isEmpty then
      (ToolResult.errorOnly "At least one property (title, description, or properties) must be provided to update the database.", [])
    else
      roundTrip env.net (updateADatabaseRequest t args)
        (statusMsgOf (ToolId.credBound AdapterId.updateADatabase))
        (catchMsgOf (ToolId.credBound AdapterId.updateADatabase))

/-- The execute function of the retrieve-a-page-property tool. -/
def notionRetrieveAPageProperty (token : Option String) (args : RetrieveAPagePropertyArgs)
    (env : NetEnv) : ToolResult × List Request :=
  simpleExec
    (fun t => { method := "GET",
                path := NOTION_API_BASE_URL ++ "/pages/" ++ args.page_id
                        ++ "/properties/" ++ args.property_id,
                query := truthyIntParam "page_size" args.page_size
                         ++ optStrParam "start_cursor" args.start_cursor,
                headers := notionHeaders t, body := none })
    (statusMsgOf (ToolId.credBound AdapterId.retrieveAPageProperty))
    (catchMsgOf (ToolId.credBound AdapterId.retrieveAPageProperty)) token env

/-- The request body of the search tool. -/
def postSearchBody (args : PostSearchArgs) : List (String × Json) :=
  [("query", Json.str args.query)]
  ++ optField "sort" args.sort
  ++ optField "filter" args.filter
  ++ optStrField "start_cursor" args.start_cursor
  ++ truthyIntField "page_size" args.page_size

/-- The one request the search tool builds; the token arrives inside the
argument object and is spliced directly into the authorization header. -/
def postSearchRequest (args : PostSearchArgs) : Request :=
  { method := "POST", path := NOTION_API_BASE_URL ++ "/search",
    query := [], headers := notionHeaders args.notionToken,
    body := some (Json.obj (postSearchBody args)) }

/-- The execute function of the search tool.  It has no credential guard:
the token arrives as a required schema argument. -/
def notionPostSearch (args : PostSearchArgs) (env : NetEnv) : ToolResult × List Request :=
  roundTrip env.net (postSearchRequest args)
    (statusMsgOf ToolId.postSearch)
    (catchMsgOf ToolId.postSearch)

/-- The one request the argument-token variant of get-user builds (the
source names this tool notionGetUser as well, in a different file). -/
def getUserTokenArgRequest (args : GetUserTokenArgArgs) : Request :=
  { method := "GET", path := NOTION_API_BASE_URL ++ "/users/" ++ args.user_id,
    query := [], headers := notionHeaders args.notionToken, body := none }

/-- The execute function of the argument-token variant of get-user.  Like
the search tool it has no credential guard. -/
def notionGetUserTokenArg (args : GetUserTokenArgArgs) (env : NetEnv) :
    ToolResult × List Request :=
  roundTrip env.net (getUserTokenArgRequest args)
    (statusMsgOf ToolId.getUserTokenArg)
    (catchMsgOf ToolId.getUserTokenArg)

/-- The argument type of each credential-bound adapter. -/
def ArgsOf : AdapterId → Type
  | AdapterId.retrieveABlock => RetrieveABlockArgs
  | AdapterId.getUsers => GetUsersArgs
  | AdapterId.updateABlock => UpdateABlockArgs
  | AdapterId.deleteABlock => DeleteABlockArgs
  | AdapterId.createAComment => CreateACommentArgs
  | AdapterId.postDatabaseQuery => PostDatabaseQueryArgs
  | AdapterId.getUser => GetUserArgs
  | AdapterId.getSelf => GetSelfArgs
  | AdapterId.retrieveADatabase => RetrieveADatabaseArgs
  | AdapterId.createADatabase => CreateADatabaseArgs
  | AdapterId.patchPage => PatchPageArgs
  | AdapterId.getBlockChildren => GetBlockChildrenArgs
  | AdapterId.retrieveAComment => RetrieveACommentArgs
  | AdapterId.patchBlockChildren => PatchBlockChildrenArgs
  | AdapterId.retrieveAPage => RetrieveAPageArgs
  | AdapterId.postPage => PostPageArgs
  | AdapterId.updateADatabase => UpdateADatabaseArgs
  | AdapterId.retrieveAPageProperty => RetrieveAPagePropertyArgs

/-- Invocation of a credential-bound adapter: dispatch to its execute
function. -/
def invoke : (a : AdapterId) → Option String → ArgsOf a → NetEnv → ToolResult × List Request
  | AdapterId.retrieveABlock => notionRetrieveABlock
  | AdapterId.getUsers => notionGetUsers
  | AdapterId.updateABlock => notionUpdateABlock
  | AdapterId.deleteABlock => notionDeleteABlock
  | AdapterId.createAComment => notionCreateAComment
  | AdapterId.postDatabaseQuery => notionPostDatabaseQuery
  | AdapterId.getUser => notionGetUser
  | AdapterId.getSelf => notionGetSelf
  | AdapterId.retrieveADatabase => notionRetrieveADatabase
  | AdapterId.createADatabase => notionCreateADatabase
  | AdapterId.patchPage => notionPatchPage
  | AdapterId.getBlockChildren => notionGetBlockChildren
  | AdapterId.retrieveAComment => notionRetrieveAComment
  | AdapterId.patchBlockChildren => notionPatchBlockChildren
  | AdapterId.retrieveAPage => notionRetrieveAPage
  | AdapterId.postPage => notionPostPage
  | AdapterId.updateADatabase => notionUpdateADatabase
  | AdapterId.retrieveAPageProperty => notionRetrieveAPageProperty

/-- The top level of each declared zod parameter schema, read off the
source: the field names, which are required, and the outer type of each
value.  (Nested object shapes, string formats, minimum lengths and
refinements are not repeated here; the embedded check therefore accepts a
superset of the source schema.) -/
def paramSpec : ToolId → List FieldSpec
  | ToolId.credBound AdapterId.retrieveABlock =>
      [⟨"block_id", true, isStr⟩]
  | ToolId.credBound AdapterId.getUsers =>
      [⟨"start_cursor", false, isStr⟩, ⟨"page_size", false, isIntAtMost 100⟩]
  | ToolId.credBound AdapterId.updateABlock =>
      [⟨"block_id", true, isStr⟩, ⟨"archived", false, isBool⟩,
       ⟨"paragraph", false, isObjCheck⟩, ⟨"heading_1", false, isObjCheck⟩,
       ⟨"heading_2", false, isObjCheck⟩, ⟨"heading_3", false, isObjCheck⟩,
       ⟨"bulleted_list_item", false, isObjCheck⟩, ⟨"numbered_list_item", false, isObjCheck⟩,
       ⟨"to_do", false, isObjCheck⟩, ⟨"toggle", false, isObjCheck⟩,
       ⟨"quote", false, isObjCheck⟩, ⟨"callout", false, isObjCheck⟩]
  | ToolId.credBound AdapterId.deleteABlock =>
      [⟨"block_id", true, isStr⟩]
  | ToolId.credBound AdapterId.createAComment =>
      [⟨"parent", true, isObjCheck⟩, ⟨"rich_text", true, isArr⟩]
  | ToolId.credBound AdapterId.postDatabaseQuery =>
      [⟨"database_id", true, isStr⟩, ⟨"filter_properties", false, isArr⟩,
       ⟨"filter", false, isObjCheck⟩, ⟨"sorts", false, isArr⟩,
       ⟨"start_cursor", false, isStr⟩, ⟨"page_size", false, isIntAtMost 100⟩,
       ⟨"archived", false, isBool⟩, ⟨"in_trash", false, isBool⟩]
  | ToolId.credBound AdapterId.getUser =>
      [⟨"user_id", true, isStr⟩]
  | ToolId.credBound AdapterId.getSelf => []
  | ToolId.credBound AdapterId.retrieveADatabase =>
      [⟨"database_id", true, isStr⟩]
  | ToolId.credBound AdapterId.createADatabase =>
      [⟨"parent", true, isObjCheck⟩, ⟨"propertiesJson", true, isStr⟩,
       ⟨"title", false, isArr⟩]
  | ToolId.credBound AdapterId.patchPage =>
      [⟨"page_id", true, isStr⟩, ⟨"properties", false, isObjCheck⟩,
       ⟨"archived", false, isBool⟩, ⟨"icon", false, isObjCheck⟩,
       ⟨"cover", false, isObjCheck⟩]
  | ToolId.credBound AdapterId.getBlockChildren =>
      [⟨"block_id", true, isStr⟩, ⟨"start_cursor", false, isStr⟩,
       ⟨"page_size", false, isIntAtMost 100⟩]
  | ToolId.credBound AdapterId.retrieveAComment =>
      [⟨"block_id", true, isStr⟩, ⟨"page_size", false, isIntAtMost 100⟩,
       ⟨"start_cursor", false, isStr⟩]
  | ToolId.credBound AdapterId.patchBlockChildren =>
      [⟨"block_id", true, isStr⟩, ⟨"children", true, isArr⟩,
       ⟨"after", false, isStr⟩]
  | ToolId.credBound AdapterId.retrieveAPage =>
      [⟨"page_id", true, isStr⟩, ⟨"filter_properties", false, isStr⟩]
  | ToolId.credBound AdapterId.postPage =>
      [⟨"parent", true, isObjCheck⟩, ⟨"properties", true, isObjCheck⟩,
       ⟨"children", false, isArr⟩, ⟨"icon", false, isObjCheck⟩,
       ⟨"cover", false, isObjCheck⟩]
  | ToolId.credBound AdapterId.updateADatabase =>
      [⟨"database_id", true, isStr⟩, ⟨"title", false, isArr⟩,
       ⟨"description", false, isArr⟩, ⟨"properties", false, isObjCheck⟩]
  | ToolId.credBound AdapterId.retrieveAPageProperty =>
      [⟨"page_id", true, isStr⟩, ⟨"property_id", true, isStr⟩,
       ⟨"page_size", false, isIntAtMost 100⟩, ⟨"start_cursor", false, isStr⟩]
  | ToolId.postSearch =>
      [⟨"notionToken", true, isStr⟩, ⟨"query", true, isStr⟩,
       ⟨"sort", false, isObjCheck⟩, ⟨"filter", false, isObjCheck⟩,
       ⟨"start_cursor", false, isStr⟩, ⟨"page_size", false, isIntAtMost 100⟩]
  | ToolId.getUserTokenArg =>
      [⟨"notionToken", true, isStr⟩, ⟨"user_id", true, isStr⟩]

/-- What the agent runtime hands back for one tool invocation: either the
rejection of an argument object that failed schema validation, or the
result of the execute function. -/
inductive InvocationOutcome where
  | rejected
  | ran : ToolResult → InvocationOutcome
deriving Repr

/-- Modelled from the spec: the tool declaration couples the parameter
schema with the execute function, and the agent runtime validates an
incoming argument object against the schema before invoking execute,
rejecting the invocation otherwise.  This wrapper lives in the agent
library, outside the repository source; only the schemas themselves are
repository code. -/
def validateThenRun (spec : List FieldSpec) (run : Json → ToolResult × List Request)
    (v : Json) : InvocationOutcome × List Request :=
  if schemaAccepts spec v then
    ((InvocationOutcome.ran (run v).1), (run v).2)
  else (InvocationOutcome.rejected, [])

/-- The local-storage key the connector uses for the secret. -/
def NOTION_TOKEN_LOCAL_STORAGE_KEY : String := "notionIntegrationSecret"

/-- The browser-durable storage as the connector sees it: the single slot
under the notion secret key, absent or holding a string. -/
structure LocalStorage where
  notionSlot : Option String
deriving Repr, DecidableEq

/-- The connector component state: the dropdown open flag, the controlled
secret input field, and the configured flag. -/
structure ConnectorState where
  isOpen : Bool
  secretInputValue : String
  isConfigured : Bool
deriving Repr, DecidableEq

/-- The state a freshly mounted connector starts from (the three useState
defaults). -/
def connectorMountState : ConnectorState :=
  { isOpen := false, secretInputValue := "", isConfigured := false }

/-- The mount effect: read the stored token, set the configured flag from
its truthiness, and clear the input field when none is found.  The stored
token value itself is never copied into the state. -/
def mountEffect (store : LocalStorage) (s : ConnectorState) : ConnectorState :=
  match store.notionSlot with
  | some tok =>
      if tok = "" then { s with isConfigured := false, secretInputValue := "" }
      else { s with isConfigured := true }
  | none => { s with isConfigured := false, secretInputValue := "" }

/-- The save handler: when the trimmed input is non-empty, write it to the
storage slot, set the configured flag and close the dropdown, logging the
save; otherwise do nothing. -/
def handleSaveSecret (chatId : String) (store : LocalStorage) (s : ConnectorState) :
    LocalStorage × ConnectorState × List String :=
  if jsTrim s.secretInputValue = "" then (store, s, [])
  else
    ({ notionSlot := some (jsTrim s.secretInputValue) },
     { s with isConfigured := true, isOpen := false },
     ["Saved Notion Integration Secret for chat " ++ chatId ++ " to local storage."])

/-- The save-on-cloud handler: a stub that only logs the first five input
characters when the trimmed input is non-empty; neither storage nor state
changes. -/
def handleSaveOnCloud (chatId : String) (store : LocalStorage) (s : ConnectorState) :
    LocalStorage × ConnectorState × List String :=
  (store, s,
   if jsTrim s.secretInputValue = "" then []
   else ["Simulating save on cloud for Notion Integration Secret for chat "
         ++ chatId ++ ": " ++ s.secretInputValue.take 5 ++ "..."])

/-- The clear handler: remove the storage slot, clear the input field and
the configured flag, logging the removal. -/
def handleClearSecret (chatId : String) (_store : LocalStorage) (s : ConnectorState) :
    LocalStorage × ConnectorState × List String :=
  ({ notionSlot := none },
   { s with secretInputValue := "", isConfigured := false },
   ["Cleared Notion Integration Secret for chat " ++ chatId ++ " from local storage."])

/-- The user-visible events the connector reacts to. -/
inductive ConnectorEvent where
  | mount
  | setInput : String → ConnectorEvent
  | saveSecret
  | saveOnCloud
  | clearSecret
  | setOpen : Bool → ConnectorEvent
deriving Repr, DecidableEq

/-- One step of the connector: the event handlers over the storage and
component state, each returning the new storage, the new state and the
console output it emits. -/
def connectorStep (chatId : String) (store : LocalStorage) (s : ConnectorState) :
    ConnectorEvent → LocalStorage × ConnectorState × List String
  | ConnectorEvent.mount => (store, mountEffect store s, [])
  | ConnectorEvent.setInput v => (store, { s with secretInputValue := v }, [])
  | ConnectorEvent.saveSecret => handleSaveSecret chatId store s
  | ConnectorEvent.saveOnCloud => handleSaveOnCloud chatId store s
  | ConnectorEvent.clearSecret => handleClearSecret chatId store s
  | ConnectorEvent.setOpen b => (store, { s with isOpen := b }, [])

/-- A run of the connector over a list of events, accumulating the console
output. -/
def connectorRun (chatId : String) (store : LocalStorage) (s : ConnectorState) :
    List ConnectorEvent → (LocalStorage × ConnectorState) × List String
  | [] => ((store, s), [])
  | e :: es =>
      let step := connectorStep chatId store s e
      let rest := connectorRun chatId step.1 step.2.1 es
      (rest.1, step.2.2 ++ rest.2)

/-- The truthiness of the stored slot, the only thing the component ever
reads from it. -/
def slotTruthy (store : LocalStorage) : Bool :=
  match store.notionSlot with
  | some t => !(t = "")
  | none => false

/-- A well-formed stored secret: non-empty, with no whitespace at either
end. -/
def WellFormedSecret (t : String) : Prop :=
  t ≠ "" ∧ (∀ c ∈ t.data.head?, isJsWS c = false) ∧ (∀ c ∈ t.data.getLast?, isJsWS c = false)

/-- The storage invariant: whenever the slot is occupied, its content is a
well-formed secret. -/
def WellFormedStore (store : LocalStorage) : Prop :=
  ∀ t, store.notionSlot = some t → WellFormedSecret t

/-- A concrete environment whose network always answers 404 with the
object-not-found body, used to evaluate the theorems on closed inputs. -/
def env404 : NetEnv :=
  { net := fun _ => FetchOutcome.success 404 (Json.obj [("code", Json.str "object_not_found")]),
    parseJson := fun _ => Except.error "unused" }

/-- A concrete environment whose network always throws, used to evaluate
the theorems on closed inputs. -/
def envThrow : NetEnv :=
  { net := fun _ => FetchOutcome.netThrow "socket hang up",
    parseJson := fun _ => Except.error "unused" }

/-- The concrete request retrieve-a-block builds for token tok and block
id b1, used to evaluate the theorems on closed inputs. -/
def sampleBlockRequest : Request :=
  { method := "GET", path := "https://api.notion.com/v1/blocks/b1",
    query := [],
    headers := [("Authorization", "Bearer tok"),
                ("Notion-Version", "2022-06-28"),
                ("Content-Type", "application/json")],
    body := none }

theorem roundTrip_snd (net : Request → FetchOutcome) (req : Request)
    (sm : Nat → String) (cm : String) : (roundTrip net req sm cm).2 = [req] := by
  unfold roundTrip
  cases h : net req with
  | success st b => by_cases hok : statusOk st <;> simp [hok]
  | netThrow m => rfl

theorem roundTrip_fst_non2xx {net : Request → FetchOutcome} {req : Request}
    {sm : Nat → String} {cm : String} {st : Nat} {b : Json}
    (h : net req = FetchOutcome.success st b) (hok : statusOk st = false) :
    (roundTrip net req sm cm).1 = ToolResult.errorDetails (sm st) b := by
  unfold roundTrip
  rw [h]
  simp [hok]

theorem roundTrip_fst_throw {net : Request → FetchOutcome} {req : Request}
    {sm : Nat → String} {cm : String} {m : String}
    (h : net req = FetchOutcome.netThrow m) :
    (roundTrip net req sm cm).1 = ToolResult.errorDetails cm (Json.str m) := by
  unfold roundTrip
  rw [h]

theorem runGuarded_some {t : String} (ht : t ≠ "")
    (k : String → ToolResult × List Request) : runGuarded (some t) k = k t := by
  simp [runGuarded, ht]

theorem simpleExec_some_snd {t : String} (ht : t ≠ "") (mkReq : String → Request)
    (sm : Nat → String) (cm : String) (env : NetEnv) :
    (simpleExec mkReq sm cm (some t) env).2 = [mkReq t] := by
  unfold simpleExec
  rw [runGuarded_some ht]
  exact roundTrip_snd _ _ _ _

theorem simpleExec_non2xx {t : String} {mkReq : String → Request}
    {sm : Nat → String} {cm : String} {env : NetEnv} {req : Request} {st : Nat} {b : Json}
    (ht : t ≠ "") (hreq : (simpleExec mkReq sm cm (some t) env).2 = [req])
    (hnet : env.net req = FetchOutcome.success st b) (hok : statusOk st = false) :
    (simpleExec mkReq sm cm (some t) env).1 = ToolResult.errorDetails (sm st) b := by
  rw [simpleExec_some_snd ht mkReq sm cm env] at hreq
  have hmk : mkReq t = req := by simpa using hreq
  subst hmk
  unfold simpleExec
  rw [runGuarded_some ht]
  exact roundTrip_fst_non2xx hnet hok

theorem simpleExec_throw {t : String} {mkReq : String → Request}
    {sm : Nat → String} {cm : String} {env : NetEnv} {req : Request} {m : String}
    (ht : t ≠ "") (hreq : (simpleExec mkReq sm cm (some t) env).2 = [req])
    (hnet : env.net req = FetchOutcome.netThrow m) :
    (simpleExec mkReq sm cm (some t) env).1 = ToolResult.errorDetails cm (Json.str m) := by
  rw [simpleExec_some_snd ht mkReq sm cm env] at hreq
  have hmk : mkReq t = req := by simpa using hreq
  subst hmk
  unfold simpleExec
  rw [runGuarded_some ht]
  exact roundTrip_fst_throw hnet

theorem accepts_required_str {spec : List FieldSpec} {v : Json} {n : String}
    (hf : FieldSpec.mk n true isStr ∈ spec) (h : schemaAccepts spec v = true) :
    ∃ s, jGet v n = some (Json.str s) := by
  unfold schemaAccepts at h
  rw [Bool.and_eq_true] at h
  have hok := List.all_eq_true.mp h.2 _ hf
  unfold fieldOk at hok
  cases hx : jGet v n with
  | none => rw [hx] at hok; simp at hok
  | some x =>
      rw [hx] at hok
      cases x <;> simp [isStr] at hok
      exact ⟨_, rfl⟩

theorem dropWhile_head_not (p : Char → Bool) (l : List Char) :
    ∀ c, (l.dropWhile p).head? = some c → p c = false := by
  induction l with
  | nil => intro c hc; simp [List.dropWhile] at hc
  | cons a t ih =>
      intro c hc
      rw [List.dropWhile_cons] at hc
      cases hb : p a with
      | true => rw [hb] at hc; simp at hc; exact ih c hc
      | false =>
          rw [hb] at hc
          simp at hc
          rw [← hc]
          exact hb

theorem dropWhile_getLast (p : Char → Bool) (l : List Char)
    (h : l.dropWhile p ≠ []) : (l.dropWhile p).getLast? = l.getLast? := by
  induction l with
  | nil => simp [List.dropWhile] at h
  | cons a t ih =>
      rw [List.dropWhile_cons] at h ⊢
      cases hb : p a with
      | true =>
          rw [hb] at h
          rw [if_pos rfl] at h
          rw [if_pos rfl]
          have ht : t ≠ [] := by
            intro he
            rw [he] at h
            exact h rfl
          rw [ih h]
          cases t with
          | nil => exact absurd rfl ht
          | cons b t2 => rw [List.getLast?_cons_cons]
      | false => simp

theorem jsTrim_head {s : String} {c : Char}
    (h : (jsTrim s).data.head? = some c) : isJsWS c = false :=
  dropWhile_head_not isJsWS ((s.data.reverse.dropWhile isJsWS).reverse) c h

theorem jsTrim_getLast {s : String} {c : Char}
    (h : (jsTrim s).data.getLast? = some c) : isJsWS c = false := by
  have h0 : (List.dropWhile isJsWS ((s.data.reverse.dropWhile isJsWS).reverse)).getLast? = some c := h
  have hne : List.dropWhile isJsWS ((s.data.reverse.dropWhile isJsWS).reverse) ≠ [] := by
    intro he
    rw [he] at h0
    simp at h0
  rw [dropWhile_getLast isJsWS _ hne, List.getLast?_reverse] at h0
  exact dropWhile_head_not isJsWS _ c h0

theorem jsTrim_wellFormed {s : String} (h : jsTrim s ≠ "") :
    WellFormedSecret (jsTrim s) :=
  ⟨h, fun _ hc => jsTrim_head hc, fun _ hc => jsTrim_getLast hc⟩

theorem mountEffect_truthy {store1 store2 : LocalStorage} (s : ConnectorState)
    (h : slotTruthy store1 = slotTruthy store2) :
    mountEffect store1 s = mountEffect store2 s := by
  unfold slotTruthy at h
  unfold mountEffect
  cases hs1 : store1.notionSlot with
  | none =>
      cases hs2 : store2.notionSlot with
      | none => rfl
      | some t2 =>
          rw [hs1, hs2] at h
          simp at h
          simp [h]
  | some t1 =>
      cases hs2 : store2.notionSlot with
      | none =>
          rw [hs1, hs2] at h
          simp at h
          simp [h]
      | some t2 =>
          rw [hs1, hs2] at h
          simp at h
          by_cases h1 : t1 = ""
          · have h2 : t2 = "" := h.mp h1
            simp [h1, h2]
          · have h2 : ¬ t2 = "" := fun he => h1 (h.mpr he)
            simp [h1, h2]

theorem connectorStep_ni (chatId : String) (e : ConnectorEvent)
    (store1 store2 : LocalStorage) (s : ConnectorState)
    (h : slotTruthy store1 = slotTruthy store2) :
    (connectorStep chatId store1 s e).2.1 = (connectorStep chatId store2 s e).2.1
    ∧ (connectorStep chatId store1 s e).2.2 = (connectorStep chatId store2 s e).2.2
    ∧ slotTruthy (connectorStep chatId store1 s e).1
      = slotTruthy (connectorStep chatId store2 s e).1 := by
  cases e with
  | mount => exact ⟨mountEffect_truthy s h, rfl, h⟩
  | setInput v => exact ⟨rfl, rfl, h⟩
  | saveSecret =>
      unfold connectorStep handleSaveSecret
      by_cases ht : jsTrim s.secretInputValue = "" <;> simp [ht, h]
  | saveOnCloud => exact ⟨rfl, rfl, h⟩
  | clearSecret => exact ⟨rfl, rfl, rfl⟩
  | setOpen b => exact ⟨rfl, rfl, h⟩

theorem updateABlock_snd {t : String} {args : UpdateABlockArgs} {env : NetEnv} {req : Request}
    (ht : t ≠ "") (hreq : (notionUpdateABlock (some t) args env).2 = [req]) :
    updateABlockRequest t args = req := by
  unfold notionUpdateABlock at hreq
  rw [runGuarded_some ht] at hreq
  by_cases hbody : (updateABlockBody args).isEmpty
  · rw [if_pos hbody] at hreq; simp at hreq
  · rw [if_neg hbody, roundTrip_snd] at hreq
    simpa using hreq

theorem updateABlock_non2xx {t : String} {args : UpdateABlockArgs} {env : NetEnv}
    {req : Request} {st : Nat} {b : Json}
    (ht : t ≠ "") (hreq : (notionUpdateABlock (some t) args env).2 = [req])
    (hnet : env.net req = FetchOutcome.success st b) (hok : statusOk st = false) :
    (notionUpdateABlock (some t) args env).1
      = ToolResult.errorDetails (statusMsgOf (ToolId.credBound AdapterId.updateABlock) st) b := by
  have hR := updateABlock_snd ht hreq
  have hbody : ¬ (updateABlockBody args).isEmpty := by
    intro hb
    unfold notionUpdateABlock at hreq
    rw [runGuarded_some ht, if_pos hb] at hreq
    simp at hreq
  unfold notionUpdateABlock
  rw [runGuarded_some ht, if_neg hbody]
  rw [← hR] at hnet
  exact roundTrip_fst_non2xx hnet hok

theorem updateABlock_throw {t : String} {args : UpdateABlockArgs} {env : NetEnv}
    {req : Request} {m : String}
    (ht : t ≠ "") (hreq : (notionUpdateABlock (some t) args env).2 = [req])
    (hnet : env.net req = FetchOutcome.netThrow m) :
    (notionUpdateABlock (some t) args env).1
      = ToolResult.errorDetails (catchMsgOf (ToolId.credBound AdapterId.updateABlock)) (Json.str m) := by
  have hR := updateABlock_snd ht hreq
  have hbody : ¬ (updateABlockBody args).isEmpty := by
    intro hb
    unfold notionUpdateABlock at hreq
    rw [runGuarded_some ht, if_pos hb] at hreq
    simp at hreq
  unfold notionUpdateABlock
  rw [runGuarded_some ht, if_neg hbody]
  rw [← hR] at hnet
  exact roundTrip_fst_throw hnet

theorem updateADatabase_snd {t : String} {args : UpdateADatabaseArgs} {env : NetEnv} {req : Request}
    (ht : t ≠ "") (hreq : (notionUpdateADatabase (some t) args env).2 = [req]) :
    updateADatabaseRequest t args = req := by
  unfold notionUpdateADatabase at hreq
  rw [runGuarded_some ht] at hreq
  by_cases hbody : (updateADatabaseBody args).isEmpty
  · rw [if_pos hbody] at hreq; simp at hreq
  · rw [if_neg hbody, roundTrip_snd] at hreq
    simpa using hreq

theorem updateADatabase_non2xx {t : String} {args : UpdateADatabaseArgs} {env : NetEnv}
    {req : Request} {st : Nat} {b : Json}
    (ht : t ≠ "") (hreq : (notionUpdateADatabase (some t) args env).2 = [req])
    (hnet : env.net req = FetchOutcome.success st b) (hok : statusOk st = false) :
    (notionUpdateADatabase (some t) args env).1
      = ToolResult.errorDetails (statusMsgOf (ToolId.credBound AdapterId.updateADatabase) st) b := by
  have hR := updateADatabase_snd ht hreq
  have hbody : ¬ (updateADatabaseBody args).isEmpty := by
    intro hb
    unfold notionUpdateADatabase at hreq
    rw [runGuarded_some ht, if_pos hb] at hreq
    simp at hreq
  unfold notionUpdateADatabase
  rw [runGuarded_some ht, if_neg hbody]
  rw [← hR] at hnet
  exact roundTrip_fst_non2xx hnet hok

theorem updateADatabase_throw {t : String} {args : UpdateADatabaseArgs} {env : NetEnv}
    {req : Request} {m : String}
    (ht : t ≠ "") (hreq : (notionUpdateADatabase (some t) args env).2 = [req])
    (hnet : env.net req = FetchOutcome.netThrow m) :
    (notionUpdateADatabase (some t) args env).1
      = ToolResult.errorDetails (catchMsgOf (ToolId.credBound AdapterId.updateADatabase)) (Json.str m) := by
  have hR := updateADatabase_snd ht hreq
  have hbody : ¬ (updateADatabaseBody args).isEmpty := by
    intro hb
    unfold notionUpdateADatabase at hreq
    rw [runGuarded_some ht, if_pos hb] at hreq
    simp at hreq
  unfold notionUpdateADatabase
  rw [runGuarded_some ht, if_neg hbody]
  rw [← hR] at hnet
  exact roundTrip_fst_throw hnet

theorem createADatabase_step {t : String} {args : CreateADatabaseArgs} {env : NetEnv}
    {props : Json} (ht : t ≠ "") (hp : env.parseJson args.propertiesJson = Except.ok props) :
    notionCreateADatabase (some t) args env
      = roundTrip env.net (createADatabaseRequest t args props)
          (statusMsgOf (ToolId.credBound AdapterId.createADatabase))
          (catchMsgOf (ToolId.credBound AdapterId.createADatabase)) := by
  unfold notionCreateADatabase
  rw [runGuarded_some ht, hp]

theorem createADatabase_non2xx {t : String} {args : CreateADatabaseArgs} {env : NetEnv}
    {req : Request} {st : Nat} {b : Json}
    (ht : t ≠ "") (hreq : (notionCreateADatabase (some t) args env).2 = [req])
    (hnet : env.net req = FetchOutcome.success st b) (hok : statusOk st = false) :
    (notionCreateADatabase (some t) args env).1
      = ToolResult.errorDetails (statusMsgOf (ToolId.credBound AdapterId.createADatabase) st) b := by
  cases hp : env.parseJson args.propertiesJson with
  | error m =>
      unfold notionCreateADatabase at hreq
      rw [runGuarded_some ht, hp] at hreq
      simp at hreq
  | ok props =>
      rw [createADatabase_step ht hp] at hreq ⊢
      rw [roundTrip_snd] at hreq
      have hR : createADatabaseRequest t args props = req := by simpa using hreq
      rw [← hR] at hnet
      exact roundTrip_fst_non2xx hnet hok

theorem createADatabase_throw {t : String} {args : CreateADatabaseArgs} {env : NetEnv}
    {req : Request} {m : String}
    (ht : t ≠ "") (hreq : (notionCreateADatabase (some t) args env).2 = [req])
    (hnet : env.net req = FetchOutcome.netThrow m) :
    (notionCreateADatabase (some t) args env).1
      = ToolResult.errorDetails (catchMsgOf (ToolId.credBound AdapterId.createADatabase)) (Json.str m) := by
  cases hp : env.parseJson args.propertiesJson with
  | error m2 =>
      unfold notionCreateADatabase at hreq
      rw [runGuarded_some ht, hp] at hreq
      simp at hreq
  | ok props =>
      rw [createADatabase_step ht hp] at hreq ⊢
      rw [roundTrip_snd] at hreq
      have hR : createADatabaseRequest t args props = req := by simpa using hreq
      rw [← hR] at hnet
      exact roundTrip_fst_throw hnet

theorem runGuarded_len {token : Option String} {k : String → ToolResult × List Request}
    (h : ∀ t, ((k t).2).length ≤ 1) : ((runGuarded token k).2).length ≤ 1 := by
  cases token with
  | none => simp [runGuarded]
  | some t =>
      by_cases ht : t = "" <;> simp [runGuarded, ht]
      exact h t

/-- Claim C1: invoking any credential-bound adapter with no bound
credential (token null or absent, modelled as none) returns the
missing-credential error result and performs zero network calls; for the
two tools that take the token as a required schema argument instead, any
argument object accepted by their schema necessarily carries a token
string, so an invocation with the token null or absent cannot pass the
schema in the first place. -/
theorem claim_c1 :
    (∀ (a : AdapterId) (args : ArgsOf a) (env : NetEnv),
        invoke a none args env = (ToolResult.errorOnly missingTokenError, []))
    ∧ (∀ v : Json, schemaAccepts (paramSpec ToolId.postSearch) v = true →
        ∃ s, jGet v "notionToken" = some (Json.str s))
    ∧ (∀ v : Json, schemaAccepts (paramSpec ToolId.getUserTokenArg) v = true →
        ∃ s, jGet v "notionToken" = some (Json.str s)) := by
  refine ⟨?_, ?_, ?_⟩
  · intro a args env
    cases a <;> rfl
  · intro v hv
    exact accepts_required_str (List.mem_cons_self _ _) hv
  · intro v hv
    exact accepts_required_str (List.mem_cons_self _ _) hv

/-- Witness for claim C1 at concrete inputs. -/
theorem claim_c1_witness :
    invoke AdapterId.retrieveABlock none { block_id := "b1" } env404
      = (ToolResult.errorOnly missingTokenError, [])
    ∧ (∃ s, jGet (Json.obj [("notionToken", Json.str "secret_x"), ("query", Json.str "q")])
          "notionToken" = some (Json.str s)) := by
  constructor
  · exact claim_c1.1 AdapterId.retrieveABlock { block_id := "b1" } env404
  · exact claim_c1.2.1 (Json.obj [("notionToken", Json.str "secret_x"), ("query", Json.str "q")])
      (by decide)

/-- Claim C5: an argument object that fails the declared top-level
parameter schema of a tool is rejected by the runtime wrapper before the
execute body runs, whatever that body would do, so no network call is
attempted; in particular the empty object fails the block-retrieval
schema, whose block id field is required. -/
theorem claim_c5 :
    (∀ (t : ToolId) (run : Json → ToolResult × List Request) (v : Json),
        schemaAccepts (paramSpec t) v = false →
        validateThenRun (paramSpec t) run v = (InvocationOutcome.rejected, []))
    ∧ schemaAccepts (paramSpec (ToolId.credBound AdapterId.retrieveABlock)) (Json.obj [])
        = false := by
  constructor
  · intro t run v h
    unfold validateThenRun
    rw [h]
    simp
  · rfl

/-- Witness for claim C5 at concrete inputs. -/
theorem claim_c5_witness :
    validateThenRun (paramSpec (ToolId.credBound AdapterId.retrieveABlock))
      (fun _ => (ToolResult.errorOnly "", [sampleBlockRequest])) (Json.obj [])
      = (InvocationOutcome.rejected, []) :=
  claim_c5.1 (ToolId.credBound AdapterId.retrieveABlock)
    (fun _ => (ToolResult.errorOnly "", [sampleBlockRequest])) (Json.obj []) (by rfl)

/-- Claim C7: one invocation of any tool performs at most one network
request, whatever the token, the arguments and the network behaviour. -/
theorem claim_c7 :
    (∀ (a : AdapterId) (token : Option String) (args : ArgsOf a) (env : NetEnv),
        ((invoke a token args env).2).length ≤ 1)
    ∧ (∀ (args : PostSearchArgs) (env : NetEnv),
        ((notionPostSearch args env).2).length ≤ 1)
    ∧ (∀ (args : GetUserTokenArgArgs) (env : NetEnv),
        ((notionGetUserTokenArg args env).2).length ≤ 1) := by
  refine ⟨?_, ?_, ?_⟩
  · intro a token args env
    cases a <;>
      (apply runGuarded_len
       intro t
       first
         | simp [roundTrip_snd]
         | (split <;> simp [roundTrip_snd]))
  · intro args env
    simp [notionPostSearch, roundTrip_snd]
  · intro args env
    simp [notionGetUserTokenArg, roundTrip_snd]

/-- Claim C2: for every tool, bound credential and argument object, when
the one request of an invocation is answered with a non-success status
and a JSON body, the invocation returns the error-details object whose
details field is that body unchanged and whose error string is the
operation stem followed by the status code. -/
theorem claim_c2 :
    (∀ (a : AdapterId) (t : String) (args : ArgsOf a) (env : NetEnv)
        (req : Request) (st : Nat) (b : Json),
        t ≠ "" →
        (invoke a (some t) args env).2 = [req] →
        env.net req = FetchOutcome.success st b →
        statusOk st = false →
        (invoke a (some t) args env).1
          = ToolResult.errorDetails (statusMsgOf (ToolId.credBound a) st) b
        ∧ statusMsgOf (ToolId.credBound a) st
          = apiFailStem (statusTagOf (ToolId.credBound a)) ++ toString st)
    ∧ (∀ (args : PostSearchArgs) (env : NetEnv) (req : Request) (st : Nat) (b : Json),
        (notionPostSearch args env).2 = [req] →
        env.net req = FetchOutcome.success st b →
        statusOk st = false →
        (notionPostSearch args env).1
          = ToolResult.errorDetails (statusMsgOf ToolId.postSearch st) b
        ∧ statusMsgOf ToolId.postSearch st
          = apiFailStem (statusTagOf ToolId.postSearch) ++ toString st)
    ∧ (∀ (args : GetUserTokenArgArgs) (env : NetEnv) (req : Request) (st : Nat) (b : Json),
        (notionGetUserTokenArg args env).2 = [req] →
        env.net req = FetchOutcome.success st b →
        statusOk st = false →
        (notionGetUserTokenArg args env).1
          = ToolResult.errorDetails (statusMsgOf ToolId.getUserTokenArg st) b) := by
  refine ⟨?_, ?_, ?_⟩
  · intro a t args env req st b ht hreq hnet hok
    cases a <;>
      first
        | exact ⟨simpleExec_non2xx ht hreq hnet hok, rfl⟩
        | exact ⟨updateABlock_non2xx ht hreq hnet hok, rfl⟩
        | exact ⟨createADatabase_non2xx ht hreq hnet hok, rfl⟩
        | exact ⟨updateADatabase_non2xx ht hreq hnet hok, rfl⟩
  · intro args env req st b hreq hnet hok
    unfold notionPostSearch at hreq ⊢
    rw [roundTrip_snd] at hreq
    have hR : postSearchRequest args = req := by simpa using hreq
    rw [← hR] at hnet
    exact ⟨roundTrip_fst_non2xx hnet hok, rfl⟩
  · intro args env req st b hreq hnet hok
    unfold notionGetUserTokenArg at hreq ⊢
    rw [roundTrip_snd] at hreq
    have hR : getUserTokenArgRequest args = req := by simpa using hreq
    rw [← hR] at hnet
    exact roundTrip_fst_non2xx hnet hok

/-- Witness for claim C2 at concrete inputs: retrieve-a-block against the
404 environment. -/
theorem claim_c2_witness :
    ("tok" : String) ≠ ""
    ∧ (invoke AdapterId.retrieveABlock (some "tok") { block_id := "b1" } env404).2
        = [sampleBlockRequest]
    ∧ env404.net sampleBlockRequest
        = FetchOutcome.success 404 (Json.obj [("code", Json.str "object_not_found")])
    ∧ statusOk 404 = false
    ∧ (invoke AdapterId.retrieveABlock (some "tok") { block_id := "b1" } env404).1
        = ToolResult.errorDetails
            (statusMsgOf (ToolId.credBound AdapterId.retrieveABlock) 404)
            (Json.obj [("code", Json.str "object_not_found")]) := by
  refine ⟨by decide, rfl, rfl, by decide, ?_⟩
  exact (claim_c2.1 AdapterId.retrieveABlock "tok" { block_id := "b1" } env404
    sampleBlockRequest 404 (Json.obj [("code", Json.str "object_not_found")])
    (by decide) rfl rfl (by decide)).1

/-- Claim C3: for every tool, bound credential and argument object, when
the one request of an invocation throws, the invocation returns the
error-details object carrying the generic transport-failure message of
that tool together with the underlying error text; the execute functions
are total, so no exception propagates past the adapter boundary. -/
theorem claim_c3 :
    (∀ (a : AdapterId) (t : String) (args : ArgsOf a) (env : NetEnv)
        (req : Request) (m : String),
        t ≠ "" →
        (invoke a (some t) args env).2 = [req] →
        env.net req = FetchOutcome.netThrow m →
        (invoke a (some t) args env).1
          = ToolResult.errorDetails (catchMsgOf (ToolId.credBound a)) (Json.str m))
    ∧ (∀ (args : PostSearchArgs) (env : NetEnv) (req : Request) (m : String),
        (notionPostSearch args env).2 = [req] →
        env.net req = FetchOutcome.netThrow m →
        (notionPostSearch args env).1
          = ToolResult.errorDetails (catchMsgOf ToolId.postSearch) (Json.str m))
    ∧ (∀ (args : GetUserTokenArgArgs) (env : NetEnv) (req : Request) (m : String),
        (notionGetUserTokenArg args env).2 = [req] →
        env.net req = FetchOutcome.netThrow m →
        (notionGetUserTokenArg args env).1
          = ToolResult.errorDetails (catchMsgOf ToolId.getUserTokenArg) (Json.str m)) := by
  refine ⟨?_, ?_, ?_⟩
  · intro a t args env req m ht hreq hnet
    cases a <;>
      first
        | exact simpleExec_throw ht hreq hnet
        | exact updateABlock_throw ht hreq hnet
        | exact createADatabase_throw ht hreq hnet
        | exact updateADatabase_throw ht hreq hnet
  · intro args env req m hreq hnet
    unfold notionPostSearch at hreq ⊢
    rw [roundTrip_snd] at hreq
    have hR : postSearchRequest args = req := by simpa using hreq
    rw [← hR] at hnet
    exact roundTrip_fst_throw hnet
  · intro args env req m hreq hnet
    unfold notionGetUserTokenArg at hreq ⊢
    rw [roundTrip_snd] at hreq
    have hR : getUserTokenArgRequest args = req := by simpa using hreq
    rw [← hR] at hnet
    exact roundTrip_fst_throw hnet

/-- Witness for claim C3 at concrete inputs: retrieve-a-block against the
throwing environment. -/
theorem claim_c3_witness :
    ("tok" : String) ≠ ""
    ∧ (invoke AdapterId.retrieveABlock (some "tok") { block_id := "b1" } envThrow).2
        = [sampleBlockRequest]
    ∧ envThrow.net sampleBlockRequest = FetchOutcome.netThrow "socket hang up"
    ∧ (invoke AdapterId.retrieveABlock (some "tok") { block_id := "b1" } envThrow).1
        = ToolResult.errorDetails (catchMsgOf (ToolId.credBound AdapterId.retrieveABlock))
            (Json.str "socket hang up") := by
  refine ⟨by decide, rfl, rfl, ?_⟩
  exact claim_c3.1 AdapterId.retrieveABlock "tok" { block_id := "b1" } envThrow
    sampleBlockRequest "socket hang up" (by decide) rfl rfl

set_option maxRecDepth 4000 in
/-- Claim C6: the page-retrieval adapter invoked with page id abc and a
bound token, against a remote answering 404 with the object-not-found
body, returns the error-details object whose error string ends with the
phrase failed with status 404 and whose details field is that body. -/
theorem claim_c6 :
    (notionRetrieveAPage (some "secret_tok")
        { page_id := "abc", filter_properties := none } env404).1
      = ToolResult.errorDetails
          "Notion API request (retrieve-a-page) failed with status 404"
          (Json.obj [("code", Json.str "object_not_found")])
    ∧ (∃ pre, "Notion API request (retrieve-a-page) failed with status 404"
        = pre ++ "failed with status 404") := by
  constructor
  · rfl
  · exact ⟨"Notion API request (retrieve-a-page) ", by decide⟩

/-- Claim C9: with a bound credential, one invocation of the
page-retrieval adapter issues exactly the request built by its request
builder; when the optional filter-properties argument is supplied
non-empty, the query of that request is one filter-properties parameter
per comma-separated piece, trimmed, in the original order, so their
number equals the number of pieces; when the argument is absent the query
is empty. -/
theorem claim_c9 :
    ∀ (t : String) (args : RetrieveAPageArgs) (env : NetEnv),
      t ≠ "" →
      (notionRetrieveAPage (some t) args env).2 = [retrieveAPageRequest t args]
      ∧ (∀ s, args.filter_properties = some s → s ≠ "" →
          (retrieveAPageRequest t args).query
            = (jsSplit (Char.ofNat 44) s).map (fun p => ("filter_properties", jsTrim p))
          ∧ ((retrieveAPageRequest t args).query).length = (jsSplit (Char.ofNat 44) s).length)
      ∧ (args.filter_properties = none → (retrieveAPageRequest t args).query = []) := by
  intro t args env ht
  refine ⟨simpleExec_some_snd ht _ _ _ env, ?_, ?_⟩
  · intro s hs hsne
    constructor
    · simp [retrieveAPageRequest, filterPropsParams, hs, hsne]
    · simp [retrieveAPageRequest, filterPropsParams, hs, hsne]
  · intro hnone
    simp [retrieveAPageRequest, filterPropsParams, hnone]

/-- Witness for claim C9 at concrete inputs. -/
theorem claim_c9_witness :
    (notionRetrieveAPage (some "k")
        { page_id := "p", filter_properties := some "a, b ,c" } env404).2
      = [retrieveAPageRequest "k" { page_id := "p", filter_properties := some "a, b ,c" }]
    ∧ (retrieveAPageRequest "k" { page_id := "p", filter_properties := some "a, b ,c" }).query
      = (jsSplit (Char.ofNat 44) "a, b ,c").map (fun p => ("filter_properties", jsTrim p))
    ∧ (jsSplit (Char.ofNat 44) "a, b ,c").map (fun p => ("filter_properties", jsTrim p))
      = [("filter_properties", "a"), ("filter_properties", "b"), ("filter_properties", "c")] := by
  have h := claim_c9 "k" { page_id := "p", filter_properties := some "a, b ,c" } env404
    (by decide)
  exact ⟨h.1, (h.2.1 "a, b ,c" rfl (by decide)).1, by decide⟩

/-- Claim C4: after the save handler stores a non-empty trimmed secret,
re-initializing the component against the resulting storage reads the
configured state as true; the clear handler sets the configured state to
false and resets the input field to the empty string, and
re-initializing against the cleared storage also reads false. -/
theorem claim_c4 :
    ∀ (chatId : String) (store : LocalStorage) (s : ConnectorState),
      (jsTrim s.secretInputValue ≠ "" →
        (mountEffect (handleSaveSecret chatId store s).1 connectorMountState).isConfigured
          = true)
      ∧ ((handleClearSecret chatId store s).2.1.isConfigured = false
         ∧ (handleClearSecret chatId store s).2.1.secretInputValue = ""
         ∧ (mountEffect (handleClearSecret chatId store s).1 connectorMountState).isConfigured
             = false) := by
  intro chatId store s
  constructor
  · intro h
    unfold handleSaveSecret
    rw [if_neg h]
    simp [mountEffect, h]
  · exact ⟨rfl, rfl, rfl⟩

/-- Witness for claim C4 at concrete inputs. -/
theorem claim_c4_witness :
    jsTrim " secret_abc " ≠ ""
    ∧ (mountEffect
        (handleSaveSecret "chat1" { notionSlot := none }
          { isOpen := true, secretInputValue := " secret_abc ", isConfigured := false }).1
        connectorMountState).isConfigured = true
    ∧ (handleClearSecret "chat1" { notionSlot := none }
        { isOpen := true, secretInputValue := " secret_abc ", isConfigured := false }).2.1.isConfigured
        = false := by
  have h := claim_c4 "chat1" { notionSlot := none }
    { isOpen := true, secretInputValue := " secret_abc ", isConfigured := false }
  exact ⟨by decide, h.1 (by decide), h.2.1⟩

/-- Claim C10: the save handler stores only non-empty trimmed secrets:
saving a whitespace-only or empty input changes nothing (neither storage
nor state nor output), saving any other input stores exactly the trimmed
input, and the handler preserves the invariant that an occupied storage
slot holds a non-empty string without leading or trailing whitespace. -/
theorem claim_c10 :
    ∀ (chatId : String) (store : LocalStorage) (s : ConnectorState),
      (jsTrim s.secretInputValue = "" → handleSaveSecret chatId store s = (store, s, []))
      ∧ (jsTrim s.secretInputValue ≠ "" →
          (handleSaveSecret chatId store s).1
            = { notionSlot := some (jsTrim s.secretInputValue) })
      ∧ (WellFormedStore store → WellFormedStore (handleSaveSecret chatId store s).1) := by
  intro chatId store s
  refine ⟨?_, ?_, ?_⟩
  · intro h
    unfold handleSaveSecret
    rw [if_pos h]
  · intro h
    unfold handleSaveSecret
    rw [if_neg h]
  · intro hwf
    unfold handleSaveSecret
    by_cases h : jsTrim s.secretInputValue = ""
    · rw [if_pos h]
      exact hwf
    · rw [if_neg h]
      intro u hu
      have hx : jsTrim s.secretInputValue = u := by simpa using hu
      rw [← hx]
      exact jsTrim_wellFormed h

/-- Witness for claim C10 at concrete inputs. -/
theorem claim_c10_witness :
    handleSaveSecret "c" { notionSlot := none }
        { isOpen := false, secretInputValue := "   ", isConfigured := false }
      = ({ notionSlot := none },
         { isOpen := false, secretInputValue := "   ", isConfigured := false }, [])
    ∧ (handleSaveSecret "c" { notionSlot := none }
        { isOpen := false, secretInputValue := " tok ", isConfigured := false }).1
      = { notionSlot := some (jsTrim " tok ") }
    ∧ WellFormedStore (handleSaveSecret "c" { notionSlot := none }
        { isOpen := false, secretInputValue := " tok ", isConfigured := false }).1 := by
  refine ⟨?_, ?_, ?_⟩
  · exact (claim_c10 "c" { notionSlot := none }
      { isOpen := false, secretInputValue := "   ", isConfigured := false }).1 (by decide)
  · exact (claim_c10 "c" { notionSlot := none }
      { isOpen := false, secretInputValue := " tok ", isConfigured := false }).2.1 (by decide)
  · exact (claim_c10 "c" { notionSlot := none }
      { isOpen := false, secretInputValue := " tok ", isConfigured := false }).2.2
      (fun _ ht => nomatch ht)

/-- Claim C8: the content of a secret already present in storage never
flows to any observable output of the connector: two runs over the same
event sequence from storages whose slots agree on truthiness (in
particular, from any two stored non-empty secrets) produce identical
component states and identical console output, so neither
re-initialization nor any handler reveals the stored secret. -/
theorem claim_c8 :
    ∀ (chatId : String) (events : List ConnectorEvent) (store1 store2 : LocalStorage)
      (s : ConnectorState),
      slotTruthy store1 = slotTruthy store2 →
      (connectorRun chatId store1 s events).1.2 = (connectorRun chatId store2 s events).1.2
      ∧ (connectorRun chatId store1 s events).2 = (connectorRun chatId store2 s events).2 := by
  intro chatId events
  induction events with
  | nil =>
      intro store1 store2 s h
      exact ⟨rfl, rfl⟩
  | cons e es ih =>
      intro store1 store2 s h
      obtain ⟨hst, hlog, htr⟩ := connectorStep_ni chatId e store1 store2 s h
      obtain ⟨ihs, ihl⟩ := ih (connectorStep chatId store1 s e).1
        (connectorStep chatId store2 s e).1 ((connectorStep chatId store2 s e).2.1) htr
      simp only [connectorRun]
      constructor
      · rw [hst]
        exact ihs
      · rw [hlog, hst, ihl]

/-- Witness for claim C8 at concrete inputs: two different stored secrets,
one run with a mount, an input edit, the cloud stub and a clear. -/
theorem claim_c8_witness :
    slotTruthy { notionSlot := some "aaaa" } = slotTruthy { notionSlot := some "bbbbbb" }
    ∧ (connectorRun "c" { notionSlot := some "aaaa" } connectorMountState
        [ConnectorEvent.mount, ConnectorEvent.setInput "x",
         ConnectorEvent.saveOnCloud, ConnectorEvent.clearSecret]).1.2
      = (connectorRun "c" { notionSlot := some "bbbbbb" } connectorMountState
        [ConnectorEvent.mount, ConnectorEvent.setInput "x",
         ConnectorEvent.saveOnCloud, ConnectorEvent.clearSecret]).1.2
    ∧ (connectorRun "c" { notionSlot := some "aaaa" } connectorMountState
        [ConnectorEvent.mount, ConnectorEvent.setInput "x",
         ConnectorEvent.saveOnCloud, ConnectorEvent.clearSecret]).2
      = (connectorRun "c" { notionSlot := some "bbbbbb" } connectorMountState
        [ConnectorEvent.mount, ConnectorEvent.setInput "x",
         ConnectorEvent.saveOnCloud, ConnectorEvent.clearSecret]).2 := by
  have h := claim_c8 "c"
    [ConnectorEvent.mount, ConnectorEvent.setInput "x",
     ConnectorEvent.saveOnCloud, ConnectorEvent.clearSecret]
    { notionSlot := some "aaaa" } { notionSlot := some "bbbbbb" } connectorMountState
    (by decide)
  exact ⟨by decide, h.1, h.2⟩
